import Mathlib

/-!
Verification of the flashcard study application's data-access layer and
study-session view-state controller.

The remote relational store is modelled as a record of three row lists
(`study_sets`, `flashcards`, `starred_flashcards`).  Each data-access
operation is translated from the source wrapper function; the outcome of
each underlying store call (which may fail at the transport level) is an
explicit boolean fault parameter, so a `true` flag means "this store call
reported an error".  Operations that swallow errors return plain values;
`toggleStar`, which re-raises, returns `Except`.

The study-session controller (`handleFlipCard` / `handleNextCard` /
`handlePrevCard`) is translated as a pure state machine over
`currentCardIndex` and `isFlipped`, parametrised by the number of cards.
-/

namespace LearnAI

/-- A row of the `study_sets` collection. -/
structure StudySetRow where
  id : String
  user_id : String
  title : String
  description : Option String
  created_at : Nat
  updated_at : Nat
deriving DecidableEq, Repr

/-- A row of the `flashcards` collection. -/
structure FlashcardRow where
  id : String
  study_set_id : String
  term : String
  definition : String
  position : Nat
  created_at : Nat
deriving DecidableEq, Repr

/-- A row of the `starred_flashcards` association collection. -/
structure StarredRow where
  user_id : String
  flashcard_id : String
deriving DecidableEq, Repr

/-- The state of the remote data store: its three collections. -/
structure DB where
  study_sets : List StudySetRow
  flashcards : List FlashcardRow
  starred_flashcards : List StarredRow
deriving DecidableEq, Repr

/-- A store-level failure, as re-raised by `toggleStar`. -/
inductive StoreErr where
  | deleteFailed
  | insertFailed
deriving DecidableEq, Repr

/-- A `StudySet` as returned by the data-access layer: the stored row
annotated with the derived `flashcard_count`. -/
structure StudySetOut where
  row : StudySetRow
  flashcard_count : Nat
deriving DecidableEq, Repr

/-- A `Flashcard` as returned by the data-access layer: the stored row with
the derived `is_starred` flag (`none` models the field left undefined). -/
structure FlashcardOut where
  row : FlashcardRow
  is_starred : Option Bool
deriving DecidableEq, Repr

/-- Store query: `starred_flashcards` filtered by user and flashcard
(the `.eq('user_id', u).eq('flashcard_id', f)` filter). -/
def selectStarredBy (db : DB) (userId flashcardId : String) : List StarredRow :=
  db.starred_flashcards.filter
    (fun r => r.user_id == userId && r.flashcard_id == flashcardId)

/-- Store query: count of `flashcards` rows referencing a study set. -/
def countFlashcardsOf (db : DB) (studySetId : String) : Nat :=
  (db.flashcards.filter (fun f => f.study_set_id == studySetId)).length

/-- Whether the pair is currently starred: an association row is present. -/
def isStarred (db : DB) (userId flashcardId : String) : Bool :=
  !(selectStarredBy db userId flashcardId).isEmpty

/-- Store mutation: delete the `starred_flashcards` rows matching user and
flashcard (the `.delete().eq('user_id', u).eq('flashcard_id', f)` call). -/
def deleteStarred (db : DB) (userId flashcardId : String) : DB :=
  let remaining := db.starred_flashcards.filter
    (fun r => !(r.user_id == userId && r.flashcard_id == flashcardId))
  { db with starred_flashcards := remaining }

/-- Store mutation: insert one `starred_flashcards` row. -/
def insertStarred (db : DB) (userId flashcardId : String) : DB :=
  { db with starred_flashcards := db.starred_flashcards ++ [⟨userId, flashcardId⟩] }

/-- Operation `getStudySets(userId)`: selects the user's study sets ordered by
`updated_at` descending, annotates each with a per-set flashcard count
(`count || 0`, so a failed count query yields `0`), and on a failed main
fetch catches the error, logs, and returns `[]`.  `fetchErr` is the fault
flag of the main select; `countFail s` tells whether the count query for
set id `s` failed. -/
def getStudySets (db : DB) (userId : String) (fetchErr : Bool)
    (countFail : String → Bool) : List StudySetOut :=
  if fetchErr then []
  else
    (List.insertionSort (fun a b : StudySetRow => b.updated_at ≤ a.updated_at)
        (db.study_sets.filter (fun s => s.user_id == userId))).map
      (fun s =>
        { row := s
          flashcard_count := if countFail s.id then 0 else countFlashcardsOf db s.id })

/-- Operation `getFlashcards(studySetId, userId?)`: selects the set's flashcards
ordered by `position` ascending.  The source guard is `if (userId && ...)`,
so the starred cross-reference runs only when the supplied user id is a
non-empty string; the starred query's error result is never destructured
(`starredErr = true` makes its data `none`, so the id set is empty).
A failed main fetch is caught and yields `[]`. -/
def getFlashcards (db : DB) (studySetId : String) (userId : Option String)
    (fetchErr : Bool) (starredErr : Bool) : List FlashcardOut :=
  if fetchErr then []
  else
    let flashcards :=
      List.insertionSort (fun a b : FlashcardRow => a.position ≤ b.position)
        (db.flashcards.filter (fun f => f.study_set_id == studySetId))
    match userId with
    | some u =>
      if u == "" then
        flashcards.map (fun card => { row := card, is_starred := none })
      else
        let starredCards : Option (List StarredRow) :=
          if starredErr then none
          else some (db.starred_flashcards.filter (fun r => r.user_id == u))
        let starredIds : List String :=
          ((starredCards.map (fun l => l.map (fun s => s.flashcard_id))).getD [])
        flashcards.map (fun card =>
          { row := card, is_starred := some (starredIds.contains card.id) })
    | none => flashcards.map (fun card => { row := card, is_starred := none })

/-- Operation `createStudySet(userId, title, description?)`: inserts a row whose
description is `description || null` (so an omitted or empty-string
description is stored as null) and returns the created row, or `none`
when the insert fails.  `newId`/`now` stand for the store-generated id and
timestamps. -/
def createStudySet (db : DB) (userId title : String) (description : Option String)
    (newId : String) (now : Nat) (insertErr : Bool) : DB × Option StudySetRow :=
  if insertErr then (db, none)
  else
    let descOrNull : Option String :=
      match description with
      | none => none
      | some d => if d == "" then none else some d
    let row : StudySetRow :=
      { id := newId, user_id := userId, title := title, description := descOrNull
        created_at := now, updated_at := now }
    ({ db with study_sets := db.study_sets ++ [row] }, some row)

/-- Operation `deleteStudySet(studySetId)`: deletes the set's flashcards first
without inspecting the result (`fcErr = true` means that delete failed and
the rows survive), then deletes the study-set row; a failure there is
thrown, caught, and reported as `false`. -/
def deleteStudySet (db : DB) (studySetId : String)
    (fcErr setErr : Bool) : DB × Bool :=
  let remainingCards := db.flashcards.filter (fun f => !(f.study_set_id == studySetId))
  let db1 := if fcErr then db else { db with flashcards := remainingCards }
  if setErr then (db1, false)
  else
    let remainingSets := db1.study_sets.filter (fun s => !(s.id == studySetId))
    ({ db1 with study_sets := remainingSets }, true)

/-- Operation `toggleStar(userId, flashcardId)`: checks for an existing association
row via a `.single()` query whose error is ignored (data is `none` unless
exactly one row matches, or when the check itself fails, `checkErr`);
if a row was found, deletes the association rows and returns `false`;
otherwise inserts one row and returns `true`.  A failed delete or insert
is re-raised to the caller. -/
def toggleStar (db : DB) (userId flashcardId : String)
    (checkErr deleteErr insertErr : Bool) : Except StoreErr (DB × Bool) :=
  let existing : Option StarredRow :=
    if checkErr then none
    else
      match selectStarredBy db userId flashcardId with
      | [r] => some r
      | _ => none
  match existing with
  | some _ =>
    if deleteErr then .error .deleteFailed
    else .ok (deleteStarred db userId flashcardId, false)
  | none =>
    if insertErr then .error .insertFailed
    else .ok (insertStarred db userId flashcardId, true)

/-- One fault-free `toggleStar` call folded back into the store state. -/
def applyToggle (db : DB) (c : String × String) : DB :=
  match toggleStar db c.1 c.2 false false false with
  | .ok (db', _) => db'
  | .error _ => db

/-- A sequence of fault-free `toggleStar` calls, applied left to right. -/
def runToggles (db : DB) (calls : List (String × String)) : DB :=
  calls.foldl applyToggle db

/-- The study-session controller's UI state. -/
structure StudyState where
  currentCardIndex : Nat
  isFlipped : Bool
deriving DecidableEq, Repr

/-- Handler `handleFlipCard`: toggles `isFlipped`, nothing else. -/
def handleFlipCard (s : StudyState) : StudyState :=
  { s with isFlipped := !s.isFlipped }

/-- Handler `handleNextCard`: no-op with zero cards, else clears the flip and

advances the index modulo the card count. -/
def handleNextCard (numCards : Nat) (s : StudyState) : StudyState :=
  if numCards = 0 then s
  else { currentCardIndex := (s.currentCardIndex + 1) % numCards, isFlipped := false }

/-- Handler `handlePrevCard`: no-op with zero cards, else clears the flip and
moves the index back, wrapping via `(index - 1 + numCards) % numCards`. -/
def handlePrevCard (numCards : Nat) (s : StudyState) : StudyState :=
  if numCards = 0 then s
  else { currentCardIndex := (s.currentCardIndex + numCards - 1) % numCards
         isFlipped := false }

/-- The three operations a study session can perform. -/
inductive StudyOp where
  | flip
  | next
  | prev
deriving DecidableEq, Repr

/-- Dispatch one operation to its handler. -/
def applyOp (numCards : Nat) (s : StudyState) : StudyOp → StudyState
  | .flip => handleFlipCard s
  | .next => handleNextCard numCards s
  | .prev => handlePrevCard numCards s

/-- Run a sequence of study-session operations. -/
def runOps (numCards : Nat) (ops : List StudyOp) (s : StudyState) : StudyState :=
  ops.foldl (applyOp numCards) s

/-! ### Concrete fixtures used by witnesses and counterexamples -/

/-- A sample study-set row. -/
def exSet : StudySetRow :=
  { id := "s1"
    user_id := "u1"
    title := "T"
    description := none
    created_at := 0
    updated_at := 5 }

/-- A sample flashcard row of set `s1`. -/
def exCard (i : String) (p : Nat) : FlashcardRow :=
  { id := i
    study_set_id := "s1"
    term := "t"
    definition := "d"
    position := p
    created_at := 0 }

/-- A sample store state: one set, two cards, one starred row. -/
def exDB : DB :=
  { study_sets := [exSet]
    flashcards := [exCard "c2" 2, exCard "c1" 1]
    starred_flashcards := [StarredRow.mk "u1" "c1"] }

/-- A store state where the user with the empty-string identifier has a
starred row for the single card of set `s1`. -/
def cexDB : DB :=
  { study_sets := [exSet]
    flashcards := [exCard "c1" 1]
    starred_flashcards := [StarredRow.mk "" "c1"] }

/-! ### Order instances for the store's sort relations -/

instance : IsTotal StudySetRow (fun a b => b.updated_at ≤ a.updated_at) :=
  ⟨fun a b => Nat.le_total b.updated_at a.updated_at⟩

instance : IsTrans StudySetRow (fun a b => b.updated_at ≤ a.updated_at) :=
  ⟨fun _ _ _ hab hbc => Nat.le_trans hbc hab⟩

instance : IsTotal FlashcardRow (fun a b => a.position ≤ b.position) :=
  ⟨fun a b => Nat.le_total a.position b.position⟩

instance : IsTrans FlashcardRow (fun a b => a.position ≤ b.position) :=
  ⟨fun _ _ _ hab hbc => Nat.le_trans hab hbc⟩

/-! ### Lemmas about the study-session controller -/

lemma handleNextCard_of_pos (L : Nat) (hL : 0 < L) (s : StudyState) :
    handleNextCard L s = ⟨(s.currentCardIndex + 1) % L, false⟩ := by
  unfold handleNextCard
  rw [if_neg (Nat.pos_iff_ne_zero.mp hL)]

lemma handlePrevCard_of_pos (L : Nat) (hL : 0 < L) (s : StudyState) :
    handlePrevCard L s = ⟨(s.currentCardIndex + L - 1) % L, false⟩ := by
  unfold handlePrevCard
  rw [if_neg (Nat.pos_iff_ne_zero.mp hL)]

lemma handleNextCard_iterate (L : Nat) (hL : 0 < L) (s : StudyState)
    (hs : s.currentCardIndex < L) (k : Nat) :
    ((handleNextCard L)^[k] s).currentCardIndex = (s.currentCardIndex + k) % L := by
  induction k with
  | zero => simp [Nat.mod_eq_of_lt hs]
  | succ n ih =>
    have hstep : (handleNextCard L ((handleNextCard L)^[n] s)).currentCardIndex
        = (((handleNextCard L)^[n] s).currentCardIndex + 1) % L := by
      rw [handleNextCard_of_pos L hL]
    rw [Function.iterate_succ_apply', hstep, ih, Nat.mod_add_mod, Nat.add_assoc]

lemma prevIdx_nextIdx (L : Nat) (hL : 0 < L) (i : Nat) (hi : i < L) :
    ((i + 1) % L + L - 1) % L = i := by
  have h1 : (i + 1) % L + L - 1 = (i + 1) % L + (L - 1) := by omega
  have h2 : i + 1 + (L - 1) = i + L := by omega
  rw [h1, Nat.mod_add_mod, h2, Nat.add_mod_right, Nat.mod_eq_of_lt hi]

lemma applyOp_lt (L : Nat) (hL : 0 < L) (s : StudyState)
    (hs : s.currentCardIndex < L) (op : StudyOp) :
    (applyOp L s op).currentCardIndex < L := by
  cases op with
  | flip => simpa [applyOp, handleFlipCard] using hs
  | next =>
    rw [applyOp, handleNextCard_of_pos L hL]
    exact Nat.mod_lt _ hL
  | prev =>
    rw [applyOp, handlePrevCard_of_pos L hL]
    exact Nat.mod_lt _ hL

lemma runOps_lt (L : Nat) (hL : 0 < L) (ops : List StudyOp) (s : StudyState)
    (hs : s.currentCardIndex < L) :
    (runOps L ops s).currentCardIndex < L := by
  induction ops generalizing s with
  | nil => simpa [runOps] using hs
  | cons op rest ih =>
    rw [runOps, List.foldl_cons]
    exact ih (applyOp L s op) (applyOp_lt L hL s hs op)

/-- C1: on a card list of length `L ≥ 1`, applying `next()` `L` times returns
`currentCardIndex` to its starting value, and `previous()` inverts `next()`
on every in-range state, both navigations resetting `isFlipped` to false. -/
theorem next_iterate_cycle_prev_inverse (L : Nat) (hL : 1 ≤ L)
    (s : StudyState) (hs : s.currentCardIndex < L) :
    ((handleNextCard L)^[L] s).currentCardIndex = s.currentCardIndex ∧
    (handlePrevCard L (handleNextCard L s)).currentCardIndex = s.currentCardIndex ∧
    (handleNextCard L s).isFlipped = false ∧
    (handlePrevCard L s).isFlipped = false := by
  refine ⟨?_, ?_, ?_, ?_⟩
  · rw [handleNextCard_iterate L hL s hs L, Nat.add_mod_right, Nat.mod_eq_of_lt hs]
  · rw [handleNextCard_of_pos L hL, handlePrevCard_of_pos L hL]
    exact prevIdx_nextIdx L hL s.currentCardIndex hs
  · rw [handleNextCard_of_pos L hL]
  · rw [handlePrevCard_of_pos L hL]

/-- Witness for C1 at `L = 3` starting from index 1 with the card flipped. -/
theorem next_iterate_cycle_prev_inverse_witness :
    ((handleNextCard 3)^[3] ⟨1, true⟩).currentCardIndex = 1 ∧
    (handlePrevCard 3 (handleNextCard 3 ⟨1, true⟩)).currentCardIndex = 1 ∧
    (handleNextCard 3 ⟨1, true⟩).isFlipped = false ∧
    (handlePrevCard 3 ⟨1, true⟩).isFlipped = false :=
  next_iterate_cycle_prev_inverse 3 (by decide) ⟨1, true⟩ (by decide)

/-- C7 as stated is false: with zero cards `next()` is a no-op, so a flipped
card stays flipped instead of `isFlipped` being reset to false. -/
theorem nav_reset_zero_cards_counterexample :
    ¬ (handleNextCard 0 ⟨0, true⟩).isFlipped = false := by decide

/-- C7 (amended): `flip()` twice restores `isFlipped` and changes no other
state; whenever at least one card exists, `next()`/`previous()` set
`isFlipped` to false regardless of its prior value; with zero cards both
navigations are no-ops. -/
theorem flip_involution_nav_reset (L : Nat) (hL : 1 ≤ L) (s : StudyState) :
    handleFlipCard (handleFlipCard s) = s ∧
    (handleFlipCard s).currentCardIndex = s.currentCardIndex ∧
    (handleNextCard L s).isFlipped = false ∧
    (handlePrevCard L s).isFlipped = false ∧
    handleNextCard 0 s = s ∧
    handlePrevCard 0 s = s := by
  refine ⟨?_, ?_, ?_, ?_, ?_, ?_⟩
  · simp [handleFlipCard]
  · simp [handleFlipCard]
  · rw [handleNextCard_of_pos L hL]
  · rw [handlePrevCard_of_pos L hL]
  · simp [handleNextCard]
  · simp [handlePrevCard]

/-- Witness for C7 (amended) at `L = 2` on a flipped state. -/
theorem flip_involution_nav_reset_witness :
    handleFlipCard (handleFlipCard ⟨1, true⟩) = ⟨1, true⟩ ∧
    (handleFlipCard ⟨1, true⟩).currentCardIndex = 1 ∧
    (handleNextCard 2 ⟨1, true⟩).isFlipped = false ∧
    (handlePrevCard 2 ⟨1, true⟩).isFlipped = false ∧
    handleNextCard 0 ⟨1, true⟩ = ⟨1, true⟩ ∧
    handlePrevCard 0 ⟨1, true⟩ = ⟨1, true⟩ :=
  flip_involution_nav_reset 2 (by decide) ⟨1, true⟩

/-- C8: with a fixed positive card count the index stays in `[0, cardCount)`
under every operation sequence from index 0; with zero cards `next()` and
`previous()` are no-ops; otherwise they step the index modulo the count,
`previous()` via `(index + cardCount - 1) % cardCount`. -/
theorem currentCardIndex_in_range_invariant (L : Nat) (hL : 1 ≤ L)
    (ops : List StudyOp) :
    (runOps L ops ⟨0, false⟩).currentCardIndex < L ∧
    (∀ s : StudyState, handleNextCard 0 s = s ∧ handlePrevCard 0 s = s) ∧
    (∀ s : StudyState,
      (handleNextCard L s).currentCardIndex = (s.currentCardIndex + 1) % L ∧
      (handlePrevCard L s).currentCardIndex = (s.currentCardIndex + L - 1) % L) := by
  refine ⟨runOps_lt L hL ops ⟨0, false⟩ hL, ?_, ?_⟩
  · intro s
    exact ⟨by simp [handleNextCard], by simp [handlePrevCard]⟩
  · intro s
    exact ⟨by rw [handleNextCard_of_pos L hL], by rw [handlePrevCard_of_pos L hL]⟩

/-! ### Lemmas about the data-access read operations -/

lemma getStudySets_ok_eq (db : DB) (u : String) (cf : String → Bool) :
    getStudySets db u false cf =
      (List.insertionSort (fun a b : StudySetRow => b.updated_at ≤ a.updated_at)
        (db.study_sets.filter (fun s => s.user_id == u))).map
        (fun s => StudySetOut.mk s (if cf s.id then 0 else countFlashcardsOf db s.id)) :=
  rfl

/-- C4 as stated is false: the per-set count queries are underlying store
fetches of `getStudySets`, but their error is never checked (`count || 0`),
so a failed count query does not empty the result.  Here the count query
for the only set fails, yet the set is returned (with `flashcard_count`
reported as 0 although two flashcards exist) instead of the claimed empty
sequence. -/
theorem getStudySets_count_error_counterexample :
    getStudySets exDB "u1" false (fun _ => true) = [StudySetOut.mk exSet 0] ∧
    getStudySets exDB "u1" false (fun _ => true) ≠ [] ∧
    countFlashcardsOf exDB "s1" = 2 := by
  decide

/-- C4 (amended): a failed main select makes `getStudySets` return `[]`
(just like a user with no study sets, so the two are indistinguishable);
a failed per-set count query does not empty the result — the user's sets
are still returned, ordered by `updated_at` descending, with the affected
set's `flashcard_count` reported as 0; on success each set is annotated
with the true flashcard count from its per-set count query. -/
theorem getStudySets_main_error_swallow_count_unchecked (db : DB) (u : String)
    (cf : String → Bool) :
    getStudySets db u true cf = [] ∧
    getStudySets (DB.mk [] db.flashcards db.starred_flashcards) u false cf = [] ∧
    ((getStudySets db u false cf).map StudySetOut.row).Perm
      (db.study_sets.filter (fun s => s.user_id == u)) ∧
    List.Pairwise (fun a b : StudySetOut => b.row.updated_at ≤ a.row.updated_at)
      (getStudySets db u false cf) ∧
    (∀ x ∈ getStudySets db u false cf,
      x.flashcard_count =
        if cf x.row.id then 0 else countFlashcardsOf db x.row.id) := by
  refine ⟨rfl, by rw [getStudySets_ok_eq]; simp, ?_, ?_, ?_⟩
  · have h := List.perm_insertionSort
      (fun a b : StudySetRow => b.updated_at ≤ a.updated_at)
      (db.study_sets.filter (fun s => s.user_id == u))
    have hmap : ((getStudySets db u false cf).map StudySetOut.row)
        = List.insertionSort (fun a b : StudySetRow => b.updated_at ≤ a.updated_at)
          (db.study_sets.filter (fun s => s.user_id == u)) := by
      rw [getStudySets_ok_eq, List.map_map]
      exact List.map_id _
    rw [hmap]
    exact h
  · have h := List.sorted_insertionSort
      (fun a b : StudySetRow => b.updated_at ≤ a.updated_at)
      (db.study_sets.filter (fun s => s.user_id == u))
    rw [getStudySets_ok_eq]
    exact List.Pairwise.map _ (fun a b hab => hab) h
  · intro x hx
    rw [getStudySets_ok_eq] at hx
    obtain ⟨s, _, rfl⟩ := List.mem_map.mp hx
    simp

/-- Witness for C8 at `L = 3` on a four-operation sequence. -/
theorem currentCardIndex_in_range_invariant_witness :
    (runOps 3 [StudyOp.next, StudyOp.flip, StudyOp.prev, StudyOp.prev]
      ⟨0, false⟩).currentCardIndex < 3 ∧
    (handleNextCard 0 ⟨2, true⟩ = ⟨2, true⟩ ∧ handlePrevCard 0 ⟨2, true⟩ = ⟨2, true⟩) ∧
    ((handleNextCard 3 ⟨2, true⟩).currentCardIndex = (2 + 1) % 3 ∧
      (handlePrevCard 3 ⟨2, true⟩).currentCardIndex = (2 + 3 - 1) % 3) :=
  ⟨(currentCardIndex_in_range_invariant 3 (by decide)
      [StudyOp.next, StudyOp.flip, StudyOp.prev, StudyOp.prev]).1,
    (currentCardIndex_in_range_invariant 3 (by decide) []).2.1 ⟨2, true⟩,
    (currentCardIndex_in_range_invariant 3 (by decide) []).2.2 ⟨2, true⟩⟩

/-- Witness for C4 (amended) on the sample store, with the count query
failing on one instantiation and succeeding on the other. -/
theorem getStudySets_main_error_swallow_count_unchecked_witness :
    getStudySets exDB "u1" true (fun _ => true) = [] ∧
    (StudySetOut.mk exSet 0).flashcard_count = 0 ∧
    (StudySetOut.mk exSet 2).flashcard_count =
      countFlashcardsOf exDB (StudySetOut.mk exSet 2).row.id :=
  ⟨(getStudySets_main_error_swallow_count_unchecked exDB "u1" (fun _ => true)).1,
    (getStudySets_main_error_swallow_count_unchecked exDB "u1"
      (fun _ => true)).2.2.2.2 (StudySetOut.mk exSet 0) (by decide),
    (getStudySets_main_error_swallow_count_unchecked exDB "u1"
      (fun _ => false)).2.2.2.2 (StudySetOut.mk exSet 2) (by decide)⟩

lemma getFlashcards_none_eq (db : DB) (sid : String) (se : Bool) :
    getFlashcards db sid none false se =
      (List.insertionSort (fun a b : FlashcardRow => a.position ≤ b.position)
        (db.flashcards.filter (fun f => f.study_set_id == sid))).map
        (fun card => FlashcardOut.mk card none) :=
  rfl

lemma getFlashcards_empty_user_eq (db : DB) (sid : String) (se : Bool) :
    getFlashcards db sid (some "") false se =
      (List.insertionSort (fun a b : FlashcardRow => a.position ≤ b.position)
        (db.flashcards.filter (fun f => f.study_set_id == sid))).map
        (fun card => FlashcardOut.mk card none) :=
  rfl

lemma getFlashcards_some_eq (db : DB) (sid u : String) (se : Bool)
    (hu : (u == "") = false) :
    getFlashcards db sid (some u) false se =
      (List.insertionSort (fun a b : FlashcardRow => a.position ≤ b.position)
        (db.flashcards.filter (fun f => f.study_set_id == sid))).map
        (fun card => FlashcardOut.mk card (some ((if se then [] else
          (db.starred_flashcards.filter (fun r => r.user_id == u)).map
            (fun s => s.flashcard_id)).contains card.id))) := by
  cases se <;> simp [getFlashcards, hu]

lemma getFlashcards_shape (db : DB) (sid : String) (uid : Option String)
    (se : Bool) :
    ∃ g : FlashcardRow → Option Bool,
      getFlashcards db sid uid false se =
        (List.insertionSort (fun a b : FlashcardRow => a.position ≤ b.position)
          (db.flashcards.filter (fun f => f.study_set_id == sid))).map
          (fun card => FlashcardOut.mk card (g card)) := by
  match uid with
  | none => exact ⟨fun _ => none, rfl⟩
  | some u =>
    by_cases hu : u = ""
    · subst hu
      exact ⟨fun _ => none, rfl⟩
    · exact ⟨_, getFlashcards_some_eq db sid u se (by simpa using hu)⟩

/-- C5 as stated is false: the source guard is JavaScript-truthy
(`if (userId && ...)`), so the empty-string user id is treated as absent.
Here the empty-string user has starred the only card of the set, yet the
returned card's `is_starred` is left undefined instead of reporting the
membership. -/
theorem getFlashcards_empty_userId_counterexample :
    (getFlashcards cexDB "s1" (some "") false false).map FlashcardOut.is_starred
      = [none] ∧
    "c1" ∈ (cexDB.starred_flashcards.filter (fun r => r.user_id == "")).map
      (fun s => s.flashcard_id) ∧
    (getFlashcards cexDB "s1" (some "") false false).map (fun c => c.row.id)
      = ["c1"] := by
  decide

/-- C5 (amended): `getFlashcards` returns the set's cards sorted by
position ascending; when a non-empty userId is supplied, each card's
`is_starred` equals membership of the card's id among the flashcard ids
the user has starred; when userId is omitted or the empty string,
`is_starred` is left undefined on every card. -/
theorem getFlashcards_order_and_star_flags (db : DB) (sid : String)
    (uid : Option String) (se : Bool) :
    ((getFlashcards db sid uid false se).map FlashcardOut.row).Perm
      (db.flashcards.filter (fun f => f.study_set_id == sid)) ∧
    List.Pairwise (fun a b : FlashcardOut => a.row.position ≤ b.row.position)
      (getFlashcards db sid uid false se) ∧
    (∀ u : String, uid = some u → u ≠ "" →
      ∀ c ∈ getFlashcards db sid uid false false,
        c.is_starred = some (decide (c.row.id ∈
          (db.starred_flashcards.filter (fun r => r.user_id == u)).map
            (fun s => s.flashcard_id)))) ∧
    ((uid = none ∨ uid = some "") →
      ∀ c ∈ getFlashcards db sid uid false se, c.is_starred = none) := by
  obtain ⟨g, hg⟩ := getFlashcards_shape db sid uid se
  refine ⟨?_, ?_, ?_, ?_⟩
  · have hmap : (getFlashcards db sid uid false se).map FlashcardOut.row
        = List.insertionSort (fun a b : FlashcardRow => a.position ≤ b.position)
          (db.flashcards.filter (fun f => f.study_set_id == sid)) := by
      rw [hg, List.map_map]
      exact List.map_id _
    rw [hmap]
    exact List.perm_insertionSort _ _
  · rw [hg]
    exact List.Pairwise.map _ (fun a b hab => hab)
      (List.sorted_insertionSort (fun a b : FlashcardRow => a.position ≤ b.position) _)
  · rintro u rfl hne c hc
    rw [getFlashcards_some_eq db sid u false (by simpa using hne)] at hc
    obtain ⟨card, _, rfl⟩ := List.mem_map.mp hc
    simp
  · rintro (rfl | rfl) c hc
    · rw [getFlashcards_none_eq] at hc
      obtain ⟨card, _, rfl⟩ := List.mem_map.mp hc
      rfl
    · rw [getFlashcards_empty_user_eq] at hc
      obtain ⟨card, _, rfl⟩ := List.mem_map.mp hc
      rfl

/-- Witness for C5 (amended) on the sample store. -/
theorem getFlashcards_order_and_star_flags_witness :
    ((getFlashcards exDB "s1" (some "u1") false false).map FlashcardOut.row).Perm
      (exDB.flashcards.filter (fun f => f.study_set_id == "s1")) ∧
    FlashcardOut.is_starred (FlashcardOut.mk (exCard "c1" 1) (some true)) =
      some (decide ((exCard "c1" 1).id ∈
        (exDB.starred_flashcards.filter (fun r => r.user_id == "u1")).map
          (fun s => s.flashcard_id))) ∧
    FlashcardOut.is_starred (FlashcardOut.mk (exCard "c1" 1) none) = none :=
  ⟨(getFlashcards_order_and_star_flags exDB "s1" (some "u1") false).1,
    (getFlashcards_order_and_star_flags exDB "s1" (some "u1") false).2.2.1
      "u1" rfl (by decide) (FlashcardOut.mk (exCard "c1" 1) (some true)) (by decide),
    (getFlashcards_order_and_star_flags exDB "s1" none false).2.2.2
      (Or.inl rfl) (FlashcardOut.mk (exCard "c1" 1) none) (by decide)⟩

/-- C9: when the starred-rows sub-query of `getFlashcards` fails, its error
is ignored: the full flashcard list is still returned (same rows as on
success) with `is_starred = false` on every card. -/
theorem getFlashcards_starred_error_ignored (db : DB) (sid u : String)
    (hu : u ≠ "") :
    (getFlashcards db sid (some u) false true).map FlashcardOut.row =
      (getFlashcards db sid (some u) false false).map FlashcardOut.row ∧
    (getFlashcards db sid (some u) false true).length =
      (getFlashcards db sid (some u) false false).length ∧
    (∀ c ∈ getFlashcards db sid (some u) false true,
      c.is_starred = some false) := by
  have hu' : (u == "") = false := by simpa using hu
  refine ⟨?_, ?_, ?_⟩
  · rw [getFlashcards_some_eq db sid u true hu',
      getFlashcards_some_eq db sid u false hu', List.map_map, List.map_map]
    exact (List.map_id _).trans (List.map_id _).symm
  · rw [getFlashcards_some_eq db sid u true hu',
      getFlashcards_some_eq db sid u false hu']
    simp
  · intro c hc
    rw [getFlashcards_some_eq db sid u true hu'] at hc
    obtain ⟨card, _, rfl⟩ := List.mem_map.mp hc
    simp

/-- Witness for C9 on the sample store. -/
theorem getFlashcards_starred_error_ignored_witness :
    ((getFlashcards exDB "s1" (some "u1") false true).map FlashcardOut.row =
      (getFlashcards exDB "s1" (some "u1") false false).map FlashcardOut.row) ∧
    FlashcardOut.is_starred (FlashcardOut.mk (exCard "c1" 1) (some false)) =
      some false :=
  ⟨(getFlashcards_starred_error_ignored exDB "s1" "u1" (by decide)).1,
    (getFlashcards_starred_error_ignored exDB "s1" "u1" (by decide)).2.2
      (FlashcardOut.mk (exCard "c1" 1) (some false)) (by decide)⟩

/-! ### Lemmas about the star-toggle operation -/

lemma toggleStar_match_eq (db : DB) (u f : String) (de ie : Bool) :
    toggleStar db u f false de ie =
      match selectStarredBy db u f with
      | [_] => if de then .error .deleteFailed
               else .ok (deleteStarred db u f, false)
      | _ => if ie then .error .insertFailed
             else .ok (insertStarred db u f, true) := by
  unfold toggleStar
  cases h : selectStarredBy db u f with
  | nil => rfl
  | cons a t => cases t <;> rfl

lemma applyToggle_eq (db : DB) (u f : String) :
    applyToggle db (u, f) =
      match selectStarredBy db u f with
      | [_] => deleteStarred db u f
      | _ => insertStarred db u f := by
  rw [applyToggle, toggleStar_match_eq]
  cases h : selectStarredBy db u f with
  | nil => rfl
  | cons a t => cases t <;> rfl

lemma selectStarredBy_deleteStarred (db : DB) (u f : String) :
    selectStarredBy (deleteStarred db u f) u f = [] := by
  simp [selectStarredBy, deleteStarred, List.filter_filter]

lemma selectStarredBy_insertStarred_same (db : DB) (u f : String) :
    selectStarredBy (insertStarred db u f) u f =
      selectStarredBy db u f ++ [⟨u, f⟩] := by
  simp [selectStarredBy, insertStarred, List.filter_append]

lemma selectStarredBy_insertStarred_ne (db : DB) (u' f' u f : String)
    (h : ¬(u' = u ∧ f' = f)) :
    selectStarredBy (insertStarred db u' f') u f = selectStarredBy db u f := by
  have hp : ((u' == u) && (f' == f)) = false := by
    rcases Decidable.em (u' = u) with h1 | h1
    · subst h1
      have h2 : f' ≠ f := fun hf => h ⟨rfl, hf⟩
      simp [h2]
    · simp [h1]
  simp [selectStarredBy, insertStarred, List.filter_append, hp]

lemma selectStarredBy_deleteStarred_other_le (db : DB) (u' f' u f : String) :
    (selectStarredBy (deleteStarred db u' f') u f).length ≤
      (selectStarredBy db u f).length := by
  have hsub : (deleteStarred db u' f').starred_flashcards.Sublist
      db.starred_flashcards := List.filter_sublist _
  exact (hsub.filter _).length_le

lemma applyToggle_le_one (db : DB) (c : String × String) (u f : String)
    (h : (selectStarredBy db u f).length ≤ 1) :
    (selectStarredBy (applyToggle db c) u f).length ≤ 1 := by
  obtain ⟨u', f'⟩ := c
  rw [applyToggle_eq]
  cases hsel : selectStarredBy db u' f' with
  | nil =>
    by_cases hef : u' = u ∧ f' = f
    · obtain ⟨rfl, rfl⟩ := hef
      rw [selectStarredBy_insertStarred_same, hsel]
      simp
    · rw [selectStarredBy_insertStarred_ne db u' f' u f hef]
      exact h
  | cons a t =>
    cases t with
    | nil => exact le_trans (selectStarredBy_deleteStarred_other_le db u' f' u f) h
    | cons b t2 =>
      by_cases hef : u' = u ∧ f' = f
      · obtain ⟨rfl, rfl⟩ := hef
        rw [hsel] at h
        simp at h
      · rw [selectStarredBy_insertStarred_ne db u' f' u f hef]
        exact h

lemma runToggles_le_one (db : DB) (calls : List (String × String)) (u f : String)
    (h : (selectStarredBy db u f).length ≤ 1) :
    (selectStarredBy (runToggles db calls) u f).length ≤ 1 := by
  induction calls generalizing db with
  | nil => simpa [runToggles] using h
  | cons c rest ih =>
    rw [runToggles, List.foldl_cons]
    exact ih (applyToggle db c) (applyToggle_le_one db c u f h)

/-- C2: from a store state with at most one association row for the pair,
a fault-free `toggleStar` succeeds and returns the flipped flag, toggling
twice restores the starred flag to its original value, and any sequence of
`toggleStar` calls leaves at most one association row for the pair. -/
theorem toggleStar_double_restores_and_no_duplicates (db : DB) (u f : String)
    (h : (selectStarredBy db u f).length ≤ 1) :
    toggleStar db u f false false false =
      .ok (applyToggle db (u, f), !(isStarred db u f)) ∧
    isStarred (applyToggle (applyToggle db (u, f)) (u, f)) u f =
      isStarred db u f ∧
    (selectStarredBy (applyToggle db (u, f)) u f).length ≤ 1 ∧
    (∀ calls : List (String × String),
      (selectStarredBy (runToggles db calls) u f).length ≤ 1) := by
  have h4 := fun calls => runToggles_le_one db calls u f h
  rcases hsel : selectStarredBy db u f with _ | ⟨r, _ | ⟨r2, t⟩⟩
  · have hst : isStarred db u f = false := by simp [isStarred, hsel]
    have e1 : applyToggle db (u, f) = insertStarred db u f := by
      rw [applyToggle_eq, hsel]
    have e2 : selectStarredBy (insertStarred db u f) u f = [⟨u, f⟩] := by
      rw [selectStarredBy_insertStarred_same, hsel]
      rfl
    refine ⟨?_, ?_, ?_, h4⟩
    · rw [toggleStar_match_eq, hsel, e1, hst]
      rfl
    · have e3 : applyToggle (insertStarred db u f) (u, f) =
          deleteStarred (insertStarred db u f) u f := by
        rw [applyToggle_eq, e2]
      rw [e1, e3, hst]
      simp [isStarred, selectStarredBy_deleteStarred]
    · rw [e1, e2]
      simp
  · have hst : isStarred db u f = true := by simp [isStarred, hsel]
    have e1 : applyToggle db (u, f) = deleteStarred db u f := by
      rw [applyToggle_eq, hsel]
    have e2 := selectStarredBy_deleteStarred db u f
    refine ⟨?_, ?_, ?_, h4⟩
    · rw [toggleStar_match_eq, hsel, e1, hst]
      rfl
    · have e3 : applyToggle (deleteStarred db u f) (u, f) =
          insertStarred (deleteStarred db u f) u f := by
        rw [applyToggle_eq, e2]
      rw [e1, e3, hst]
      simp [isStarred, selectStarredBy_insertStarred_same]
    · rw [e1, e2]
      simp
  · rw [hsel] at h
    simp at h

/-- Witness for C2 on the sample store, with a two-call sequence. -/
theorem toggleStar_double_restores_and_no_duplicates_witness :
    toggleStar exDB "u1" "c1" false false false =
      .ok (applyToggle exDB ("u1", "c1"), !(isStarred exDB "u1" "c1")) ∧
    isStarred (applyToggle (applyToggle exDB ("u1", "c1")) ("u1", "c1"))
      "u1" "c1" = isStarred exDB "u1" "c1" ∧
    (selectStarredBy (runToggles exDB [("u1", "c2"), ("u2", "c1")])
      "u1" "c1").length ≤ 1 :=
  ⟨(toggleStar_double_restores_and_no_duplicates exDB "u1" "c1" (by decide)).1,
    (toggleStar_double_restores_and_no_duplicates exDB "u1" "c1" (by decide)).2.1,
    (toggleStar_double_restores_and_no_duplicates exDB "u1" "c1" (by decide)).2.2.2
      [("u1", "c2"), ("u2", "c1")]⟩

/-- C3: `toggleStar` deletes the association row and returns `false` when
one is present, inserts one and returns `true` when absent, and re-raises
the underlying delete or insert failure to the caller instead of
swallowing it. -/
theorem toggleStar_branches_and_error_propagation (db : DB) (u f : String)
    (h : (selectStarredBy db u f).length ≤ 1) :
    (isStarred db u f = true →
      toggleStar db u f false false false = .ok (deleteStarred db u f, false)) ∧
    (isStarred db u f = false →
      toggleStar db u f false false false = .ok (insertStarred db u f, true)) ∧
    (isStarred db u f = true →
      toggleStar db u f false true false = .error .deleteFailed) ∧
    (isStarred db u f = false →
      toggleStar db u f false false true = .error .insertFailed) := by
  rcases hsel : selectStarredBy db u f with _ | ⟨r, _ | ⟨r2, t⟩⟩
  · have hst : isStarred db u f = false := by simp [isStarred, hsel]
    refine ⟨?_, ?_, ?_, ?_⟩
    · intro hc
      rw [hst] at hc
      exact absurd hc (by decide)
    · intro _
      rw [toggleStar_match_eq, hsel]
      rfl
    · intro hc
      rw [hst] at hc
      exact absurd hc (by decide)
    · intro _
      rw [toggleStar_match_eq, hsel]
      rfl
  · have hst : isStarred db u f = true := by simp [isStarred, hsel]
    refine ⟨?_, ?_, ?_, ?_⟩
    · intro _
      rw [toggleStar_match_eq, hsel]
      rfl
    · intro hc
      rw [hst] at hc
      exact absurd hc (by decide)
    · intro _
      rw [toggleStar_match_eq, hsel]
      rfl
    · intro hc
      rw [hst] at hc
      exact absurd hc (by decide)
  · rw [hsel] at h
    simp at h

/-- Witness for C3 on the sample store: `c1` is starred, `c2` is not. -/
theorem toggleStar_branches_and_error_propagation_witness :
    toggleStar exDB "u1" "c1" false false false =
      .ok (deleteStarred exDB "u1" "c1", false) ∧
    toggleStar exDB "u1" "c2" false false false =
      .ok (insertStarred exDB "u1" "c2", true) ∧
    toggleStar exDB "u1" "c1" false true false = .error .deleteFailed ∧
    toggleStar exDB "u1" "c2" false false true = .error .insertFailed :=
  ⟨(toggleStar_branches_and_error_propagation exDB "u1" "c1" (by decide)).1
      (by decide),
    (toggleStar_branches_and_error_propagation exDB "u1" "c2" (by decide)).2.1
      (by decide),
    (toggleStar_branches_and_error_propagation exDB "u1" "c1" (by decide)).2.2.1
      (by decide),
    (toggleStar_branches_and_error_propagation exDB "u1" "c2" (by decide)).2.2.2
      (by decide)⟩

/-- C6: `deleteStudySet` removes the flashcards, then the set row, and
reports success; when the flashcard delete fails its result is not
checked, so the operation still deletes the set row and returns `true`
while the flashcards survive; when the set delete fails it returns
`false` with the flashcards already gone. -/
theorem deleteStudySet_order_and_unchecked_first_delete (db : DB) (sid : String) :
    deleteStudySet db sid false false =
      (DB.mk (db.study_sets.filter (fun s => !(s.id == sid)))
        (db.flashcards.filter (fun f => !(f.study_set_id == sid)))
        db.starred_flashcards, true) ∧
    ((deleteStudySet db sid true false).2 = true ∧
      (deleteStudySet db sid true false).1.flashcards = db.flashcards ∧
      (deleteStudySet db sid true false).1.study_sets =
        db.study_sets.filter (fun s => !(s.id == sid))) ∧
    ((deleteStudySet db sid false true).2 = false ∧
      (deleteStudySet db sid false true).1.flashcards =
        db.flashcards.filter (fun f => !(f.study_set_id == sid)) ∧
      (deleteStudySet db sid false true).1.study_sets = db.study_sets) :=
  ⟨rfl, ⟨rfl, rfl, rfl⟩, ⟨rfl, rfl, rfl⟩⟩

/-- C10: `createStudySet` stores an omitted or empty-string description as
null (`description || null`), so a created row never carries the
empty-string description. -/
theorem createStudySet_description_normalization (db : DB) (u t : String)
    (d : Option String) (newId : String) (now : Nat) (e : Bool) :
    (createStudySet db u t none newId now false).2 =
      some (StudySetRow.mk newId u t none now now) ∧
    (createStudySet db u t (some "") newId now false).2 =
      some (StudySetRow.mk newId u t none now now) ∧
    (∀ r, (createStudySet db u t d newId now e).2 = some r →
      r.description ≠ some "") := by
  refine ⟨rfl, rfl, ?_⟩
  intro r hr
  cases e with
  | true => simp [createStudySet] at hr
  | false =>
    cases d with
    | none =>
      have hr' : r = StudySetRow.mk newId u t none now now := by
        simpa [createStudySet] using hr.symm
      subst hr'
      simp
    | some s =>
      by_cases hs : s = ""
      · subst hs
        have hr' : r = StudySetRow.mk newId u t none now now := by
          simpa [createStudySet] using hr.symm
        subst hr'
        simp
      · have hr' : r = StudySetRow.mk newId u t (some s) now now := by
          simpa [createStudySet, hs] using hr.symm
        subst hr'
        simp [hs]

/-- Witness for C10 at a concrete insert. -/
theorem createStudySet_description_normalization_witness :
    (StudySetRow.mk "s9" "u9" "T9" (some "x") 3 3).description ≠ some "" :=
  (createStudySet_description_normalization exDB "u9" "T9" (some "x") "s9" 3
      false).2.2 (StudySetRow.mk "s9" "u9" "T9" (some "x") 3 3) (by decide)

end LearnAI
